import Mathlib

/-!
Verification of the failback decision engine of `src/utils/failback-loader.ts`.

The TypeScript source is shallowly embedded below.  URLs are modelled
structurally (a record of the WHATWG URL components that the code reads and
writes); timestamps and byte counters are natural numbers in milliseconds and
bytes; JavaScript number arithmetic that may go negative is modelled with
`Int`.  The asynchronous control flow of one `load` call is modelled as a
recursion over the outcomes of the successive attempts, and the cross-request
session state (`FailbackSessionState`) as an explicit record threaded through
the transition functions, one per event-handler of the source.
-/

namespace HlsFailback

/-- Constants from the top of failback-loader.ts. -/
def PERMANENT_FAILBACK_THRESHOLD : Nat := 2

def PROBE_EVERY_N_FRAGMENTS : Nat := 6

def PROBE_TIMEOUT_MS : Nat := 3000

def STALL_TIMEOUT_MS : Nat := 5000

def STALL_CHECK_INTERVAL_MS : Nat := 1000

def MIN_SPEED_BYTES_PER_SEC : Nat := 4096

/-- Structural model of a parsed WHATWG URL: the components the loader reads
and writes (`new URL(...)` followed by assignments to `hostname`, `port` and
`protocol`).  An original URL that does not parse is represented as `none`
at use sites. -/
structure URLRec where
  scheme : String
  username : String
  password : String
  hostname : String
  port : String
  pathname : String
  search : String
  hash : String
deriving DecidableEq, Repr

/-- The per-session mutable record `FailbackSessionState` of the source. -/
structure FailbackSessionState where
  consecutiveOriginalFailures : Nat
  permanentFailbackMode : Bool
  threshold : Nat
  fragmentsSinceLastProbe : Nat
  lastSuccessfulOriginalUrl : Option URLRec
  isProbeInProgress : Bool
deriving DecidableEq, Repr

/-- The state created by `getSessionState` on first reference. -/
def initialSessionState : FailbackSessionState :=
  { consecutiveOriginalFailures := 0
    permanentFailbackMode := false
    threshold := PERMANENT_FAILBACK_THRESHOLD
    fragmentsSinceLastProbe := 0
    lastSuccessfulOriginalUrl := none
    isProbeInProgress := false }

/-- Model of `resetFailbackState(config)` from the source. -/
def resetFailbackState (state : FailbackSessionState) : FailbackSessionState :=
  let wasInPermanentMode := state.permanentFailbackMode
  let state1 := { state with permanentFailbackMode := false, fragmentsSinceLastProbe := 0 }
  if wasInPermanentMode then
    { state1 with consecutiveOriginalFailures := PERMANENT_FAILBACK_THRESHOLD - 1 }
  else
    { state1 with consecutiveOriginalFailures := 0 }

/-- Synchronous prefix of `tryRecoverToOriginalCDN`: the three guard checks and
the setting of `isProbeInProgress`.  Returns the updated state and whether a
probe request was actually started. -/
def tryRecoverStart (state : FailbackSessionState) : FailbackSessionState × Bool :=
  if state.isProbeInProgress then (state, false)
  else if !state.permanentFailbackMode then (state, false)
  else if state.lastSuccessfulOriginalUrl = none then (state, false)
  else ({ state with isProbeInProgress := true }, true)

/-- Possible resolutions of the probe promise: `alive` (HTTP 200/206), `down`
(any other status, timeout, or network error, which `probeOriginalCDN`
resolves to `false`), or `error` (a rejection reaching the `.catch`). -/
inductive ProbeOutcome
  | alive
  | down
  | error
deriving DecidableEq, Repr

/-- Continuation (`.then`/`.catch`/`.finally`) of `tryRecoverToOriginalCDN`:
re-checks permanent mode, resets the session on a live probe, and clears
`isProbeInProgress` on every path. -/
def tryRecoverFinish (state : FailbackSessionState) (o : ProbeOutcome) : FailbackSessionState :=
  let state1 :=
    match o with
    | ProbeOutcome.alive =>
        if !state.permanentFailbackMode then state else resetFailbackState state
    | ProbeOutcome.down => state
    | ProbeOutcome.error => state
  { state1 with isProbeInProgress := false }

/-- JavaScript `String.prototype.split` with a one-character separator,
on the character list of the string. -/
def splitOnChar (sep : Char) : List Char → List (List Char)
  | [] => [[]]
  | c :: cs =>
    if c = sep then [] :: splitOnChar sep cs
    else
      match splitOnChar sep cs with
      | [] => [[c]]
      | p :: ps => (c :: p) :: ps

/-- Model of `getFailbackUrl(attempt)` of the source.  The optional custom
`transformUrl` (closed over the fixed original URL) takes precedence; the
default path rewrites the parsed original URL (`none` when `new URL` throws)
to `hosts[attempt]`, destructuring `failbackHost.split(':')` into hostname and
port when the host string includes a colon, and forcing the https scheme.
`includes` and `split` are modelled on the character list of the host. -/
def getFailbackUrl (transformUrl : Option (Nat → Option URLRec)) (hosts : List String)
    (originalUrl : Option URLRec) (attempt : Nat) : Option URLRec :=
  match transformUrl with
  | some transform => transform attempt
  | none =>
    if hosts.length ≤ attempt then none
    else
      match originalUrl with
      | none => none
      | some url =>
        let failbackHost := hosts.getD attempt ""
        let url1 :=
          if failbackHost.toList.contains ':' then
            let parts := splitOnChar ':' failbackHost.toList
            { url with
                hostname := String.mk (parts.getD 0 [])
                port := String.mk (parts.getD 1 []) }
          else
            { url with hostname := failbackHost, port := "" }
        some { url1 with scheme := "https:" }

/-- The origin-selection logic at the top of `load`: in permanent failback
mode and with a non-null rewrite for index 0, start at attempt 1 against the
rewritten URL, otherwise fall through to attempt 0 against the context URL.
Returns the initial `failbackAttempt` and the first URL issued. -/
def load {α : Type} (state : FailbackSessionState) (contextUrl : α)
    (rewriteUrl : Nat → Option α) : Nat × α :=
  if state.permanentFailbackMode then
    match rewriteUrl 0 with
    | some failbackUrl => (1, failbackUrl)
    | none => (0, contextUrl)
  else (0, contextUrl)

/-- The single-use guard at the top of `load`: throws when
`this.stats.loading.start` is truthy, otherwise records the start time. -/
def loadStartGuard (loadingStart now : Nat) : Except String Nat :=
  if loadingStart ≠ 0 then Except.error "Loader can only be used once."
  else Except.ok now

/-- Session-state effect of the failure branch of `handleError`. -/
def handleErrorState (failbackAttempt : Nat) (state : FailbackSessionState) :
    FailbackSessionState :=
  if failbackAttempt = 0 ∧ state.permanentFailbackMode = false then
    let state1 :=
      { state with consecutiveOriginalFailures := state.consecutiveOriginalFailures + 1 }
    if PERMANENT_FAILBACK_THRESHOLD ≤ state1.consecutiveOriginalFailures then
      { state1 with permanentFailbackMode := true }
    else state1
  else state

/-- Session-state effect of `onTimeout` (identical failure-attribution block). -/
def onTimeoutState (failbackAttempt : Nat) (state : FailbackSessionState) :
    FailbackSessionState :=
  if failbackAttempt = 0 ∧ state.permanentFailbackMode = false then
    let state1 :=
      { state with consecutiveOriginalFailures := state.consecutiveOriginalFailures + 1 }
    if PERMANENT_FAILBACK_THRESHOLD ≤ state1.consecutiveOriginalFailures then
      { state1 with permanentFailbackMode := true }
    else state1
  else state

/-- Session-state effect of `onNetworkError` (identical failure-attribution block). -/
def onNetworkErrorState (failbackAttempt : Nat) (state : FailbackSessionState) :
    FailbackSessionState :=
  if failbackAttempt = 0 ∧ state.permanentFailbackMode = false then
    let state1 :=
      { state with consecutiveOriginalFailures := state.consecutiveOriginalFailures + 1 }
    if PERMANENT_FAILBACK_THRESHOLD ≤ state1.consecutiveOriginalFailures then
      { state1 with permanentFailbackMode := true }
    else state1
  else state

/-- Session-state effect of `onStall` (identical failure-attribution block). -/
def onStallState (failbackAttempt : Nat) (state : FailbackSessionState) :
    FailbackSessionState :=
  if failbackAttempt = 0 ∧ state.permanentFailbackMode = false then
    let state1 :=
      { state with consecutiveOriginalFailures := state.consecutiveOriginalFailures + 1 }
    if PERMANENT_FAILBACK_THRESHOLD ≤ state1.consecutiveOriginalFailures then
      { state1 with permanentFailbackMode := true }
    else state1
  else state

/-- Session-state effect of the success path of `onReadyStateChange`: failure
counter reset, recording of `lastSuccessfulOriginalUrl`, and the probe-cadence
counter.  The returned Bool is whether `tryRecoverToOriginalCDN` was invoked. -/
def onReadyStateSuccessState (failbackAttempt : Nat) (originalUrl : URLRec)
    (state : FailbackSessionState) : FailbackSessionState × Bool :=
  let state1 :=
    if failbackAttempt = 0 ∧ state.permanentFailbackMode = false then
      { state with consecutiveOriginalFailures := 0 }
    else state
  let state2 :=
    if state1.lastSuccessfulOriginalUrl = none ∨ failbackAttempt = 0 then
      { state1 with lastSuccessfulOriginalUrl := some originalUrl }
    else state1
  if state2.permanentFailbackMode then
    let state3 :=
      { state2 with fragmentsSinceLastProbe := state2.fragmentsSinceLastProbe + 1 }
    if PROBE_EVERY_N_FRAGMENTS ≤ state3.fragmentsSinceLastProbe then
      ({ state3 with fragmentsSinceLastProbe := 0 }, true)
    else (state3, false)
  else (state2, false)

/-- JavaScript regular-expression whitespace class `\s` (ASCII whitespace,
NBSP, the Unicode space separators, line and paragraph separators, and BOM),
by code point. -/
def isJsSpace (c : Char) : Bool :=
  c = ' ' ∨ c = '\t' ∨ c = '\n' ∨ c = '\r' ∨ c.toNat = 11 ∨ c.toNat = 12 ∨
  c.toNat = 0xa0 ∨ c.toNat = 0x1680 ∨ (0x2000 ≤ c.toNat ∧ c.toNat ≤ 0x200a) ∨
  c.toNat = 0x2028 ∨ c.toNat = 0x2029 ∨ c.toNat = 0x202f ∨ c.toNat = 0x205f ∨
  c.toNat = 0x3000 ∨ c.toNat = 0xfeff

/-- Greedy tail of `\d+` with the numeric value accumulated (radix 10). -/
def takeDigitsAux : List Char → Nat → Nat × List Char
  | [], acc => (acc, [])
  | c :: cs, acc =>
    if c.isDigit then takeDigitsAux cs (acc * 10 + (c.toNat - 48))
    else (acc, c :: cs)

/-- Parse `\d+`: one or more digits, returning the value and the rest. -/
def takeDigits1 : List Char → Option (Nat × List Char)
  | [] => none
  | c :: cs =>
    if c.isDigit then some (takeDigitsAux cs (c.toNat - 48))
    else none

/-- Case-insensitive literal match (the regex carries the `i` flag). -/
def matchLitCI : List Char → List Char → Option (List Char)
  | [], rest => some rest
  | _ :: _, [] => none
  | l :: ls, c :: cs => if c.toLower = l then matchLitCI ls cs else none

/-- Attempt to match `bytes\s+(\d+)-(\d+)\/(\d+|\*)` at the head of the
character list, returning the captured start, end, and total (`none` for a
`*` total). -/
def matchContentRangeAt (cs : List Char) : Option (Nat × Nat × Option Nat) := do
  let r1 ← matchLitCI ("bytes".toList) cs
  match r1 with
  | [] => none
  | c :: cs1 =>
    if isJsSpace c then
      let cs2 := cs1.dropWhile isJsSpace
      let (rangeStart, cs3) ← takeDigits1 cs2
      match cs3 with
      | '-' :: cs4 =>
        let (rangeEnd, cs5) ← takeDigits1 cs4
        match cs5 with
        | '/' :: cs6 =>
          match takeDigits1 cs6 with
          | some (total, _) => some (rangeStart, rangeEnd, some total)
          | none =>
            match cs6 with
            | '*' :: _ => some (rangeStart, rangeEnd, none)
            | _ => none
        | _ => none
      | _ => none
    else none

/-- Leftmost match of the content-range pattern, as
`contentRange.match(/bytes\s+(\d+)-(\d+)\/(\d+|\*)/i)`. -/
def searchContentRange : List Char → Option (Nat × Nat × Option Nat)
  | [] => none
  | c :: cs =>
    match matchContentRangeAt (c :: cs) with
    | some r => some r
    | none => searchContentRange cs

/-- Result of the completed-response classification in `onReadyStateChange`. -/
inductive ResponseClassification
  | success
  | reclassifiedFailure (status : Nat)
deriving DecidableEq, Repr

/-- Verdict on the parsed capture groups of the Content-Range header: the
`totalSize > 0 && receivedBytes < totalSize` test of `onReadyStateChange`
(with `totalSize = -1` for a `*` total, as `match[3] === '*' ? -1 : ...`). -/
def contentRangeVerdict : Option (Nat × Nat × Option Nat) → ResponseClassification
  | some (rangeStart, rangeEnd, total?) =>
    let totalSize : Int := match total? with | some t => (t : Int) | none => -1
    let receivedBytes : Int := (rangeEnd : Int) - (rangeStart : Int) + 1
    if 0 < totalSize ∧ receivedBytes < totalSize then
      ResponseClassification.reclassifiedFailure 206
    else ResponseClassification.success
  | none => ResponseClassification.success

/-- The 206 integrity check of `onReadyStateChange`, applied to a completed
response with a non-null body: a 206 to a request for which the caller set no
byte range (JS truthiness of `rangeStart`/`rangeEnd`), whose Content-Range
parses with a concrete total strictly larger than the returned slice, is fed
back into `handleError` with status 206; every other completed 2xx response is
an ordinary success. -/
def classify206 (rangeStart rangeEnd status : Nat) (contentRange : Option String) :
    ResponseClassification :=
  if status = 206 ∧ ¬(rangeStart ≠ 0 ∨ rangeEnd ≠ 0) then
    match contentRange with
    | some cr => contentRangeVerdict (searchContentRange cr.toList)
    | none => ResponseClassification.success
  else ResponseClassification.success

/-- The per-attempt bookkeeping of the stall monitor. -/
structure StallMonitorState where
  lastProgressTime : Nat
  lastTotalBytes : Nat
  lowSpeedDuration : Nat
deriving DecidableEq, Repr

/-- Model of `startStallCheck`: initialize the monitor at attempt start. -/
def startStallCheck (now loaded : Nat) : StallMonitorState :=
  { lastProgressTime := now, lastTotalBytes := loaded, lowSpeedDuration := 0 }

/-- One firing of the `setInterval` callback in `startStallCheck`: returns
whether `onStall` was invoked, and the updated monitor bookkeeping. -/
def stallTick (now loaded : Nat) (m : StallMonitorState) : Bool × StallMonitorState :=
  let timeSinceProgress := now - m.lastProgressTime
  if STALL_TIMEOUT_MS < timeSinceProgress then (true, m)
  else
    let bytesDiff : Int := (loaded : Int) - (m.lastTotalBytes : Int)
    let minBytesRequired : Int :=
      (MIN_SPEED_BYTES_PER_SEC : Int) * ((STALL_CHECK_INTERVAL_MS : Int) / 1000)
    if 0 < loaded ∧ bytesDiff < minBytesRequired then
      let lowSpeed := m.lowSpeedDuration + STALL_CHECK_INTERVAL_MS
      if STALL_TIMEOUT_MS ≤ lowSpeed then
        (true, { m with lowSpeedDuration := lowSpeed })
      else
        (false, { m with lowSpeedDuration := lowSpeed, lastTotalBytes := loaded })
    else
      (false, { m with lowSpeedDuration := 0, lastTotalBytes := loaded })

/-- The failure modes that end one attempt. -/
inductive FailKind
  | httpError (status : Nat) (statusText : String)
  | networkError
  | timedOut
  | stalled
deriving DecidableEq, Repr

/-- Outcome of a single issued attempt. -/
inductive AttemptOutcome
  | ok
  | fail (k : FailKind)
deriving DecidableEq, Repr

/-- The observable callback events of one `load` call. -/
inductive TraceEvent
  | failback (originalUrl failbackUrl : URLRec) (attempt : Nat)
  | allFailed (originalUrl : URLRec) (attempts : Nat)
  | termSuccess (url : URLRec) (attempt : Nat)
  | termError (code : Nat) (text : String)
  | termTimeout
deriving DecidableEq, Repr

/-- Which terminal callback each failure handler fires on exhaustion, with the
error object it carries: `handleError` passes the last status and status text
to `onError`, `onNetworkError` passes code 0 and `Network error`, and
`onTimeout` and `onStall` invoke `onTimeout`. -/
def terminalOf : FailKind → TraceEvent
  | FailKind.httpError status statusText => TraceEvent.termError status statusText
  | FailKind.networkError => TraceEvent.termError 0 "Network error"
  | FailKind.timedOut => TraceEvent.termTimeout
  | FailKind.stalled => TraceEvent.termTimeout

/-- Dispatch of a failed attempt to the session-state effect of the handler
that observes it. -/
def failureStateUpdate : FailKind → Nat → FailbackSessionState → FailbackSessionState
  | FailKind.httpError _ _, a, s => handleErrorState a s
  | FailKind.networkError, a, s => onNetworkErrorState a s
  | FailKind.timedOut, a, s => onTimeoutState a s
  | FailKind.stalled, a, s => onStallState a s

/-- The retry loop shared by `handleError`, `onTimeout`, `onNetworkError` and
`onStall`: on failure, compute `getFailbackUrl(failbackAttempt)`; when it is
non-null and differs from the URL just tried, fire `onFailback` and re-issue;
otherwise fire `onAllFailed(originalUrl, failbackAttempt + 1)` and the
terminal callback of the triggering failure.  `fuel` bounds the recursion; the
wrapper `runAttempts` supplies enough fuel for the default rewriter, whose
attempt index is bounded by the host-list length. -/
def runAttemptsFuel (hosts : List String) (originalUrl : URLRec)
    (outcome : Nat → AttemptOutcome) :
    Nat → URLRec → Nat → FailbackSessionState → FailbackSessionState × List TraceEvent
  | 0, _, _, s => (s, [])
  | fuel + 1, currentUrl, attempt, s =>
    match outcome attempt with
    | AttemptOutcome.ok =>
      ((onReadyStateSuccessState attempt originalUrl s).1,
        [TraceEvent.termSuccess currentUrl attempt])
    | AttemptOutcome.fail k =>
      let s1 := failureStateUpdate k attempt s
      match getFailbackUrl none hosts (some originalUrl) attempt with
      | some failbackUrl =>
        if failbackUrl ≠ currentUrl then
          let r := runAttemptsFuel hosts originalUrl outcome fuel failbackUrl (attempt + 1) s1
          (r.1, TraceEvent.failback originalUrl failbackUrl (attempt + 1) :: r.2)
        else
          (s1, [TraceEvent.allFailed originalUrl (attempt + 1), terminalOf k])
      | none =>
        (s1, [TraceEvent.allFailed originalUrl (attempt + 1), terminalOf k])

/-- One whole `load` call starting at attempt 0 against the original URL (the
non-permanent-mode entry), with the default rewriter. -/
def runAttempts (hosts : List String) (originalUrl : URLRec)
    (outcome : Nat → AttemptOutcome) (s : FailbackSessionState) :
    FailbackSessionState × List TraceEvent :=
  runAttemptsFuel hosts originalUrl outcome (hosts.length + 1) originalUrl 0 s

/-- Terminal callbacks among the trace events. -/
def isTerminal : TraceEvent → Bool
  | TraceEvent.termSuccess _ _ => true
  | TraceEvent.termError _ _ => true
  | TraceEvent.termTimeout => true
  | _ => false

/-- Number of terminal-callback invocations in a trace. -/
def countTerminals (tr : List TraceEvent) : Nat :=
  (tr.filter isTerminal).length

/-- The candidate URL the default rewriter produces at a given attempt index
(defaulting to the original URL below `hosts.length`, where it is total). -/
def candidateAt (hosts : List String) (orig : URLRec) (i : Nat) : URLRec :=
  (getFailbackUrl none hosts (some orig) i).getD orig

/-- The URL issued by the i-th attempt of an exhausting run: the original URL
first, then the successive rewrite candidates. -/
def triedAt (hosts : List String) (orig : URLRec) : Nat → URLRec
  | 0 => orig
  | i + 1 => candidateAt hosts orig i

/-- Session-level events: the outcome of one fetch attempt observed by a
handler, the synchronous start of a recovery probe, and the asynchronous
resolution of a probe. -/
inductive SessionEvent
  | failure (attempt : Nat)
  | success (attempt : Nat) (originalUrl : URLRec)
  | probeStart
  | probeResolve (o : ProbeOutcome)
deriving DecidableEq, Repr

/-- Effect of one session event on the shared session state. -/
def sessionStep (s : FailbackSessionState) : SessionEvent → FailbackSessionState
  | SessionEvent.failure a => handleErrorState a s
  | SessionEvent.success a u => (onReadyStateSuccessState a u s).1
  | SessionEvent.probeStart => (tryRecoverStart s).1
  | SessionEvent.probeResolve o => tryRecoverFinish s o

/-- The session state after a sequence of events, starting from the state
`getSessionState` creates. -/
def runSession (evs : List SessionEvent) : FailbackSessionState :=
  evs.foldl sessionStep initialSessionState

/-! Supporting lemmas. -/

theorem getFailbackUrl_default_of_le (hosts : List String) (o : Option URLRec) (attempt : Nat)
    (h : hosts.length ≤ attempt) : getFailbackUrl none hosts o attempt = none := by
  simp [getFailbackUrl, h]

theorem getFailbackUrl_default_eq (hosts : List String) (orig : URLRec) (attempt : Nat)
    (h : attempt < hosts.length) :
    getFailbackUrl none hosts (some orig) attempt =
      some (if (hosts.getD attempt "").toList.contains ':' then
        { orig with
            hostname := String.mk ((splitOnChar ':' (hosts.getD attempt "").toList).getD 0 [])
            port := String.mk ((splitOnChar ':' (hosts.getD attempt "").toList).getD 1 [])
            scheme := "https:" }
      else { orig with hostname := hosts.getD attempt "", port := "", scheme := "https:" }) := by
  have h' : ¬ hosts.length ≤ attempt := Nat.not_le.mpr h
  simp only [getFailbackUrl]
  rw [if_neg h']
  split_ifs with hc <;> rfl

theorem getFailbackUrl_default_lt_some (hosts : List String) (orig : URLRec) (attempt : Nat)
    (h : attempt < hosts.length) :
    getFailbackUrl none hosts (some orig) attempt = some (candidateAt hosts orig attempt) := by
  rw [candidateAt, getFailbackUrl_default_eq hosts orig attempt h]
  rfl

theorem getFailbackUrl_default_some_lt (hosts : List String) (orig : URLRec) (attempt : Nat)
    (u : URLRec) (h : getFailbackUrl none hosts (some orig) attempt = some u) :
    attempt < hosts.length := by
  by_contra hcon
  rw [getFailbackUrl_default_of_le hosts (some orig) attempt (Nat.not_lt.mp hcon)] at h
  exact Option.noConfusion h

/-! Claim theorems. -/

/-- Claim C5: for every original URL that parses and every attempt index below
the number of configured hosts, `getFailbackUrl` returns a URL whose hostname
is the selected host (hostname and port both set when the host string has a
colon, the port cleared otherwise), whose scheme is https regardless of the
original scheme, and whose path, query, fragment and userinfo equal the
original's; for an original URL that does not parse it returns null. -/
theorem C5_url_rewrite (hosts : List String) (orig : URLRec) (attempt : Nat)
    (h : attempt < hosts.length) :
    (getFailbackUrl none hosts (some orig) attempt).map URLRec.scheme = some "https:" ∧
    (getFailbackUrl none hosts (some orig) attempt).map URLRec.pathname = some orig.pathname ∧
    (getFailbackUrl none hosts (some orig) attempt).map URLRec.search = some orig.search ∧
    (getFailbackUrl none hosts (some orig) attempt).map URLRec.hash = some orig.hash ∧
    (getFailbackUrl none hosts (some orig) attempt).map URLRec.username = some orig.username ∧
    (getFailbackUrl none hosts (some orig) attempt).map URLRec.password = some orig.password ∧
    ((hosts.getD attempt "").toList.contains ':' = true →
      (getFailbackUrl none hosts (some orig) attempt).map URLRec.hostname =
        some (String.mk ((splitOnChar ':' (hosts.getD attempt "").toList).getD 0 [])) ∧
      (getFailbackUrl none hosts (some orig) attempt).map URLRec.port =
        some (String.mk ((splitOnChar ':' (hosts.getD attempt "").toList).getD 1 []))) ∧
    ((hosts.getD attempt "").toList.contains ':' = false →
      (getFailbackUrl none hosts (some orig) attempt).map URLRec.hostname =
        some (hosts.getD attempt "") ∧
      (getFailbackUrl none hosts (some orig) attempt).map URLRec.port = some "") ∧
    getFailbackUrl none hosts none attempt = none := by
  have h' : ¬ hosts.length ≤ attempt := Nat.not_le.mpr h
  rw [getFailbackUrl_default_eq hosts orig attempt h]
  cases hc : (hosts.getD attempt "").toList.contains ':' <;> simp [getFailbackUrl, h']

/-- Claim C5 witness at a host with an explicit port. -/
theorem C5_url_rewrite_witness :
    (getFailbackUrl none ["cdn1.example.com:8443"]
        (some { scheme := "http:", username := "u", password := "p",
                hostname := "origin.example.com", port := "8080",
                pathname := "/seg/4.ts", search := "?a=1&a=2", hash := "#frag" }) 0).map
      URLRec.scheme = some "https:" ∧
    (getFailbackUrl none ["cdn1.example.com:8443"]
        (some { scheme := "http:", username := "u", password := "p",
                hostname := "origin.example.com", port := "8080",
                pathname := "/seg/4.ts", search := "?a=1&a=2", hash := "#frag" }) 0).map
      URLRec.hostname = some "cdn1.example.com" ∧
    (getFailbackUrl none ["cdn1.example.com:8443"]
        (some { scheme := "http:", username := "u", password := "p",
                hostname := "origin.example.com", port := "8080",
                pathname := "/seg/4.ts", search := "?a=1&a=2", hash := "#frag" }) 0).map
      URLRec.port = some "8443" ∧
    getFailbackUrl none ["cdn1.example.com:8443"] none 0 = none := by
  have h := C5_url_rewrite ["cdn1.example.com:8443"]
    { scheme := "http:", username := "u", password := "p",
      hostname := "origin.example.com", port := "8080",
      pathname := "/seg/4.ts", search := "?a=1&a=2", hash := "#frag" } 0 (by decide)
  have hcolon := h.2.2.2.2.2.2.1 (by decide)
  refine ⟨h.1, ?_, ?_, h.2.2.2.2.2.2.2.2⟩
  · rw [hcolon.1]; rfl
  · rw [hcolon.2]; rfl

/-- Claim C6: a load started while the session is in permanent failback mode
bypasses the primary origin: the loader synthesizes attempt index 1 and issues
its first request against the rewrite of the original URL to the first
alternate host (index 0 of the host list), not against the original URL. -/
theorem C6_permanent_mode_bypasses_primary (s : FailbackSessionState) (hosts : List String)
    (orig u : URLRec) (hperm : s.permanentFailbackMode = true)
    (hrw : getFailbackUrl none hosts (some orig) 0 = some u) :
    load s orig (getFailbackUrl none hosts (some orig)) = (1, u) ∧
    u = candidateAt hosts orig 0 ∧
    u.scheme = "https:" ∧
    (u ≠ orig → (load s orig (getFailbackUrl none hosts (some orig))).2 ≠ orig) := by
  have hlt : 0 < hosts.length := getFailbackUrl_default_some_lt hosts orig 0 u hrw
  have hcand : u = candidateAt hosts orig 0 := by
    rw [candidateAt, hrw]; rfl
  have hload : load s orig (getFailbackUrl none hosts (some orig)) = (1, u) := by
    simp [load, hperm, hrw]
  refine ⟨hload, hcand, ?_, ?_⟩
  · have := getFailbackUrl_default_eq hosts orig 0 hlt
    rw [this] at hrw
    cases hrw
    split <;> rfl
  · intro hne
    rw [hload]
    exact hne

/-- Claim C6 witness: in permanent mode with one alternate host, the first
request is attempt 1 against the https rewrite. -/
theorem C6_permanent_mode_bypasses_primary_witness :
    load
      { consecutiveOriginalFailures := 2, permanentFailbackMode := true, threshold := 2,
        fragmentsSinceLastProbe := 0, lastSuccessfulOriginalUrl := none,
        isProbeInProgress := false }
      { scheme := "http:", username := "", password := "", hostname := "origin.example.com",
        port := "", pathname := "/seg/5.ts", search := "", hash := "" }
      (getFailbackUrl none ["cdn1.example.com"]
        (some { scheme := "http:", username := "", password := "",
                hostname := "origin.example.com", port := "", pathname := "/seg/5.ts",
                search := "", hash := "" })) =
      (1, { scheme := "https:", username := "", password := "", hostname := "cdn1.example.com",
            port := "", pathname := "/seg/5.ts", search := "", hash := "" }) :=
  (C6_permanent_mode_bypasses_primary
    { consecutiveOriginalFailures := 2, permanentFailbackMode := true, threshold := 2,
      fragmentsSinceLastProbe := 0, lastSuccessfulOriginalUrl := none,
      isProbeInProgress := false }
    ["cdn1.example.com"]
    { scheme := "http:", username := "", password := "", hostname := "origin.example.com",
      port := "", pathname := "/seg/5.ts", search := "", hash := "" }
    { scheme := "https:", username := "", password := "", hostname := "cdn1.example.com",
      port := "", pathname := "/seg/5.ts", search := "", hash := "" }
    rfl (by decide)).1

/-- Claim C10: a load started in permanent failback mode whose attempt-0
rewrite is null (a configured transformUrl returning null, or an original URL
that does not parse) falls through and issues the request against the
original primary URL at attempt index 0. -/
theorem C10_null_rewrite_falls_through {α : Type} (s : FailbackSessionState)
    (contextUrl : α) (rewriteUrl : Nat → Option α) (hosts : List String)
    (o : Option URLRec)
    (hperm : s.permanentFailbackMode = true) (hrw : rewriteUrl 0 = none) :
    load s contextUrl rewriteUrl = (0, contextUrl) ∧
    getFailbackUrl none hosts none 0 = none ∧
    getFailbackUrl (some (fun _ => none)) hosts o 0 = none := by
  refine ⟨?_, ?_, rfl⟩
  · simp [load, hperm, hrw]
  · cases Nat.le_total hosts.length 0 with
    | inl hle => exact getFailbackUrl_default_of_le hosts none 0 hle
    | inr hge => simp only [getFailbackUrl]; split <;> rfl

/-- Claim C10 witness: permanent mode with an unparseable original URL still
issues attempt 0 against the context URL. -/
theorem C10_null_rewrite_falls_through_witness :
    load
      { consecutiveOriginalFailures := 2, permanentFailbackMode := true, threshold := 2,
        fragmentsSinceLastProbe := 0, lastSuccessfulOriginalUrl := none,
        isProbeInProgress := false }
      "not a url" (fun _ => (none : Option String)) = (0, "not a url") ∧
    getFailbackUrl none ["cdn1.example.com"] none 0 = none :=
  let r := C10_null_rewrite_falls_through
    { consecutiveOriginalFailures := 2, permanentFailbackMode := true, threshold := 2,
      fragmentsSinceLastProbe := 0, lastSuccessfulOriginalUrl := none,
      isProbeInProgress := false }
    "not a url" (fun _ => (none : Option String)) ["cdn1.example.com"] none rfl rfl
  ⟨r.1, r.2.1⟩

/-- Number of probes actually started by three back-to-back synchronous
invocations of `tryRecoverToOriginalCDN` (no probe resolving in between). -/
def probeStartsInThree (s : FailbackSessionState) : Nat :=
  let r1 := tryRecoverStart s
  let r2 := tryRecoverStart r1.1
  let r3 := tryRecoverStart r2.1
  (cond r1.2 1 0) + (cond r2.2 1 0) + (cond r3.2 1 0)

/-- Claim C7: probe mutual exclusion.  An invocation of the recovery prober
while `isProbeInProgress` is true performs no probe and no state change;
`isProbeInProgress` is true synchronously as soon as a probe is started; every
termination path of the probe resets it to false; and three back-to-back
invocations against the same session start at most one probe. -/
theorem C7_probe_mutual_exclusion (s : FailbackSessionState) (o : ProbeOutcome) :
    (s.isProbeInProgress = true → tryRecoverStart s = (s, false)) ∧
    ((tryRecoverStart s).2 = true → (tryRecoverStart s).1.isProbeInProgress = true) ∧
    (tryRecoverFinish s o).isProbeInProgress = false ∧
    probeStartsInThree s ≤ 1 := by
  refine ⟨?_, ?_, ?_, ?_⟩
  · intro hp; simp [tryRecoverStart, hp]
  · intro hstart
    by_cases h1 : s.isProbeInProgress
    · simp [tryRecoverStart, h1] at hstart
    · by_cases h2 : s.permanentFailbackMode
      · by_cases h3 : s.lastSuccessfulOriginalUrl = none
        · simp [tryRecoverStart, h1, h2, h3] at hstart
        · simp [tryRecoverStart, h1, h2, h3]
      · simp [tryRecoverStart, h1, h2] at hstart
  · cases o <;> simp [tryRecoverFinish, resetFailbackState]
  · by_cases h1 : s.isProbeInProgress
    · simp [probeStartsInThree, tryRecoverStart, h1]
    · by_cases h2 : s.permanentFailbackMode
      · by_cases h3 : s.lastSuccessfulOriginalUrl = none
        · simp [probeStartsInThree, tryRecoverStart, h1, h2, h3]
        · simp [probeStartsInThree, tryRecoverStart, h1, h2, h3]
      · simp [probeStartsInThree, tryRecoverStart, h1, h2]

/-- Claim C7 witness: from a probe-eligible state, the probe starts, the flag
is raised, every resolution clears it, and three invocations start one probe. -/
theorem C7_probe_mutual_exclusion_witness :
    (tryRecoverStart
        { consecutiveOriginalFailures := 2, permanentFailbackMode := true, threshold := 2,
          fragmentsSinceLastProbe := 0,
          lastSuccessfulOriginalUrl := some
            { scheme := "https:", username := "", password := "",
              hostname := "origin.example.com", port := "", pathname := "/seg/1.ts",
              search := "", hash := "" },
          isProbeInProgress := false }).1.isProbeInProgress = true ∧
    (tryRecoverFinish
        { consecutiveOriginalFailures := 2, permanentFailbackMode := true, threshold := 2,
          fragmentsSinceLastProbe := 0,
          lastSuccessfulOriginalUrl := some
            { scheme := "https:", username := "", password := "",
              hostname := "origin.example.com", port := "", pathname := "/seg/1.ts",
              search := "", hash := "" },
          isProbeInProgress := true } ProbeOutcome.alive).isProbeInProgress = false ∧
    probeStartsInThree
        { consecutiveOriginalFailures := 2, permanentFailbackMode := true, threshold := 2,
          fragmentsSinceLastProbe := 0,
          lastSuccessfulOriginalUrl := some
            { scheme := "https:", username := "", password := "",
              hostname := "origin.example.com", port := "", pathname := "/seg/1.ts",
              search := "", hash := "" },
          isProbeInProgress := false } ≤ 1 := by
  refine ⟨?_, ?_, ?_⟩
  · exact (C7_probe_mutual_exclusion _ ProbeOutcome.alive).2.1 (by decide)
  · exact (C7_probe_mutual_exclusion _ ProbeOutcome.alive).2.2.1
  · exact (C7_probe_mutual_exclusion _ ProbeOutcome.alive).2.2.2

/-- Claim C2: a recovery probe that succeeds while the session is still in
permanent failback mode leaves `permanentFailbackMode = false`,
`fragmentsSinceLastProbe = 0` and `consecutiveOriginalFailures = threshold - 1
= 1` (never 0); the very next primary-origin failure re-enters permanent mode
having recorded exactly one more failure, while the very next primary-origin
success resets the failure count to 0 with permanent mode remaining false. -/
theorem C2_probationary_reset (s : FailbackSessionState) (u : URLRec)
    (hperm : s.permanentFailbackMode = true) :
    (tryRecoverFinish s ProbeOutcome.alive).permanentFailbackMode = false ∧
    (tryRecoverFinish s ProbeOutcome.alive).fragmentsSinceLastProbe = 0 ∧
    (tryRecoverFinish s ProbeOutcome.alive).consecutiveOriginalFailures =
      PERMANENT_FAILBACK_THRESHOLD - 1 ∧
    (tryRecoverFinish s ProbeOutcome.alive).consecutiveOriginalFailures = 1 ∧
    (handleErrorState 0 (tryRecoverFinish s ProbeOutcome.alive)).permanentFailbackMode = true ∧
    (handleErrorState 0 (tryRecoverFinish s ProbeOutcome.alive)).consecutiveOriginalFailures =
      (tryRecoverFinish s ProbeOutcome.alive).consecutiveOriginalFailures + 1 ∧
    (onReadyStateSuccessState 0 u
      (tryRecoverFinish s ProbeOutcome.alive)).1.consecutiveOriginalFailures = 0 ∧
    (onReadyStateSuccessState 0 u
      (tryRecoverFinish s ProbeOutcome.alive)).1.permanentFailbackMode = false := by
  simp [tryRecoverFinish, resetFailbackState, hperm, handleErrorState,
    onReadyStateSuccessState, PERMANENT_FAILBACK_THRESHOLD, PROBE_EVERY_N_FRAGMENTS]

/-- Claim C2 witness at a concrete permanent-mode state. -/
theorem C2_probationary_reset_witness :
    (tryRecoverFinish
        { consecutiveOriginalFailures := 2, permanentFailbackMode := true, threshold := 2,
          fragmentsSinceLastProbe := 4, lastSuccessfulOriginalUrl := none,
          isProbeInProgress := true } ProbeOutcome.alive).permanentFailbackMode = false ∧
    (tryRecoverFinish
        { consecutiveOriginalFailures := 2, permanentFailbackMode := true, threshold := 2,
          fragmentsSinceLastProbe := 4, lastSuccessfulOriginalUrl := none,
          isProbeInProgress := true } ProbeOutcome.alive).consecutiveOriginalFailures = 1 ∧
    (handleErrorState 0 (tryRecoverFinish
        { consecutiveOriginalFailures := 2, permanentFailbackMode := true, threshold := 2,
          fragmentsSinceLastProbe := 4, lastSuccessfulOriginalUrl := none,
          isProbeInProgress := true } ProbeOutcome.alive)).permanentFailbackMode = true := by
  have h := C2_probationary_reset
    { consecutiveOriginalFailures := 2, permanentFailbackMode := true, threshold := 2,
      fragmentsSinceLastProbe := 4, lastSuccessfulOriginalUrl := none,
      isProbeInProgress := true }
    { scheme := "https:", username := "", password := "", hostname := "origin.example.com",
      port := "", pathname := "/seg/1.ts", search := "", hash := "" } rfl
  exact ⟨h.1, h.2.2.2.1, h.2.2.2.2.1⟩

/-- Reachable-state invariant of the session state machine: in permanent mode
the failure counter sits exactly at the threshold; outside permanent mode it
is strictly below. -/
def SessionInv (s : FailbackSessionState) : Prop :=
  (s.permanentFailbackMode = true →
    s.consecutiveOriginalFailures = PERMANENT_FAILBACK_THRESHOLD) ∧
  (s.permanentFailbackMode = false →
    s.consecutiveOriginalFailures < PERMANENT_FAILBACK_THRESHOLD)

theorem sessionInv_initial : SessionInv initialSessionState := by
  constructor <;> intro h <;> simp [initialSessionState, PERMANENT_FAILBACK_THRESHOLD] at h ⊢

theorem handleErrorState_perm (a : Nat) (s : FailbackSessionState) :
    (handleErrorState a s).permanentFailbackMode =
      if a = 0 ∧ s.permanentFailbackMode = false then
        (if PERMANENT_FAILBACK_THRESHOLD ≤ s.consecutiveOriginalFailures + 1 then true
         else s.permanentFailbackMode)
      else s.permanentFailbackMode := by
  simp only [handleErrorState]
  split_ifs <;> rfl

theorem handleErrorState_failures (a : Nat) (s : FailbackSessionState) :
    (handleErrorState a s).consecutiveOriginalFailures =
      if a = 0 ∧ s.permanentFailbackMode = false then s.consecutiveOriginalFailures + 1
      else s.consecutiveOriginalFailures := by
  simp only [handleErrorState]
  split_ifs <;> rfl

theorem sessionInv_handleError (a : Nat) (s : FailbackSessionState) (hinv : SessionInv s) :
    SessionInv (handleErrorState a s) := by
  obtain ⟨h1, h2⟩ := hinv
  constructor
  · intro hp
    rw [handleErrorState_perm] at hp
    rw [handleErrorState_failures]
    by_cases hc : a = 0 ∧ s.permanentFailbackMode = false
    · rw [if_pos hc] at hp ⊢
      by_cases hth : PERMANENT_FAILBACK_THRESHOLD ≤ s.consecutiveOriginalFailures + 1
      · have := h2 hc.2
        omega
      · rw [if_neg hth, hc.2] at hp
        exact absurd hp (by simp)
    · rw [if_neg hc] at hp ⊢
      exact h1 hp
  · intro hp
    rw [handleErrorState_perm] at hp
    rw [handleErrorState_failures]
    by_cases hc : a = 0 ∧ s.permanentFailbackMode = false
    · rw [if_pos hc] at hp ⊢
      by_cases hth : PERMANENT_FAILBACK_THRESHOLD ≤ s.consecutiveOriginalFailures + 1
      · rw [if_pos hth] at hp
        exact absurd hp (by simp)
      · omega
    · rw [if_neg hc] at hp ⊢
      exact h2 hp

theorem onReadyStateSuccessState_perm (a : Nat) (u : URLRec) (s : FailbackSessionState) :
    (onReadyStateSuccessState a u s).1.permanentFailbackMode = s.permanentFailbackMode := by
  simp only [onReadyStateSuccessState]
  split_ifs <;> rfl

theorem onReadyStateSuccessState_failures (a : Nat) (u : URLRec) (s : FailbackSessionState) :
    (onReadyStateSuccessState a u s).1.consecutiveOriginalFailures =
      if a = 0 ∧ s.permanentFailbackMode = false then 0
      else s.consecutiveOriginalFailures := by
  simp only [onReadyStateSuccessState]
  split_ifs <;> rfl

theorem sessionInv_success (a : Nat) (u : URLRec) (s : FailbackSessionState)
    (hinv : SessionInv s) : SessionInv (onReadyStateSuccessState a u s).1 := by
  obtain ⟨h1, h2⟩ := hinv
  constructor
  · intro hp
    rw [onReadyStateSuccessState_perm] at hp
    rw [onReadyStateSuccessState_failures]
    rw [if_neg (by simp [hp])]
    exact h1 hp
  · intro hp
    rw [onReadyStateSuccessState_perm] at hp
    rw [onReadyStateSuccessState_failures]
    split
    · simp [PERMANENT_FAILBACK_THRESHOLD]
    · exact h2 hp

theorem tryRecoverStart_perm (s : FailbackSessionState) :
    (tryRecoverStart s).1.permanentFailbackMode = s.permanentFailbackMode := by
  simp only [tryRecoverStart]
  split_ifs <;> rfl

theorem tryRecoverStart_failures (s : FailbackSessionState) :
    (tryRecoverStart s).1.consecutiveOriginalFailures = s.consecutiveOriginalFailures := by
  simp only [tryRecoverStart]
  split_ifs <;> rfl

theorem sessionInv_probeStart (s : FailbackSessionState) (hinv : SessionInv s) :
    SessionInv (tryRecoverStart s).1 := by
  constructor
  · intro hp
    rw [tryRecoverStart_perm] at hp
    rw [tryRecoverStart_failures]
    exact hinv.1 hp
  · intro hp
    rw [tryRecoverStart_perm] at hp
    rw [tryRecoverStart_failures]
    exact hinv.2 hp

theorem tryRecoverFinish_alive_perm (s : FailbackSessionState) :
    (tryRecoverFinish s ProbeOutcome.alive).permanentFailbackMode = false := by
  by_cases hm : s.permanentFailbackMode <;>
    simp [tryRecoverFinish, resetFailbackState, hm]

theorem tryRecoverFinish_alive_failures (s : FailbackSessionState) :
    (tryRecoverFinish s ProbeOutcome.alive).consecutiveOriginalFailures =
      if s.permanentFailbackMode then PERMANENT_FAILBACK_THRESHOLD - 1
      else s.consecutiveOriginalFailures := by
  by_cases hm : s.permanentFailbackMode <;>
    simp [tryRecoverFinish, resetFailbackState, hm]

theorem sessionInv_probeResolve (o : ProbeOutcome) (s : FailbackSessionState)
    (hinv : SessionInv s) : SessionInv (tryRecoverFinish s o) := by
  obtain ⟨h1, h2⟩ := hinv
  cases o with
  | alive =>
    constructor
    · intro hp
      rw [tryRecoverFinish_alive_perm] at hp
      exact absurd hp (by simp)
    · intro _
      rw [tryRecoverFinish_alive_failures]
      split
      · simp [PERMANENT_FAILBACK_THRESHOLD]
      · next hm =>
        exact h2 (by simpa using hm)
  | down =>
    constructor <;> intro hp <;> simp only [tryRecoverFinish] at hp ⊢
    · exact h1 hp
    · exact h2 hp
  | error =>
    constructor <;> intro hp <;> simp only [tryRecoverFinish] at hp ⊢
    · exact h1 hp
    · exact h2 hp

theorem sessionInv_step (s : FailbackSessionState) (e : SessionEvent) (hinv : SessionInv s) :
    SessionInv (sessionStep s e) := by
  cases e with
  | failure a => exact sessionInv_handleError a s hinv
  | success a u => exact sessionInv_success a u s hinv
  | probeStart => exact sessionInv_probeStart s hinv
  | probeResolve o => exact sessionInv_probeResolve o s hinv

theorem sessionInv_foldl (evs : List SessionEvent) :
    ∀ s, SessionInv s → SessionInv (evs.foldl sessionStep s) := by
  induction evs with
  | nil => intro s h; exact h
  | cons e evs ih => intro s h; exact ih (sessionStep s e) (sessionInv_step s e h)

theorem sessionInv_runSession (evs : List SessionEvent) : SessionInv (runSession evs) :=
  sessionInv_foldl evs initialSessionState sessionInv_initial

theorem tryRecoverFinish_down_perm (s : FailbackSessionState) :
    (tryRecoverFinish s ProbeOutcome.down).permanentFailbackMode = s.permanentFailbackMode := rfl

theorem tryRecoverFinish_down_failures (s : FailbackSessionState) :
    (tryRecoverFinish s ProbeOutcome.down).consecutiveOriginalFailures =
      s.consecutiveOriginalFailures := rfl

theorem tryRecoverFinish_error_perm (s : FailbackSessionState) :
    (tryRecoverFinish s ProbeOutcome.error).permanentFailbackMode = s.permanentFailbackMode := rfl

theorem tryRecoverFinish_error_failures (s : FailbackSessionState) :
    (tryRecoverFinish s ProbeOutcome.error).consecutiveOriginalFailures =
      s.consecutiveOriginalFailures := rfl

theorem sessionStep_attribution (s : FailbackSessionState) (e : SessionEvent)
    (hinv : SessionInv s) :
    (s.consecutiveOriginalFailures < (sessionStep s e).consecutiveOriginalFailures →
      e = SessionEvent.failure 0 ∧ s.permanentFailbackMode = false) ∧
    ((s.permanentFailbackMode = false ∧ (sessionStep s e).permanentFailbackMode = true) ↔
      (s.consecutiveOriginalFailures < PERMANENT_FAILBACK_THRESHOLD ∧
        (sessionStep s e).consecutiveOriginalFailures = PERMANENT_FAILBACK_THRESHOLD)) ∧
    ((sessionStep s e).permanentFailbackMode = true →
      (sessionStep s e).consecutiveOriginalFailures = PERMANENT_FAILBACK_THRESHOLD) := by
  obtain ⟨h1, h2⟩ := hinv
  refine ⟨?_, ?_, (sessionInv_step s e ⟨h1, h2⟩).1⟩
  · intro hincr
    cases e with
    | failure a =>
      simp only [sessionStep] at hincr ⊢
      rw [handleErrorState_failures] at hincr
      by_cases hc : a = 0 ∧ s.permanentFailbackMode = false
      · exact ⟨by rw [hc.1], hc.2⟩
      · rw [if_neg hc] at hincr
        exact absurd hincr (by omega)
    | success a u =>
      simp only [sessionStep] at hincr
      rw [onReadyStateSuccessState_failures] at hincr
      exfalso
      split at hincr <;> omega
    | probeStart =>
      simp only [sessionStep] at hincr
      rw [tryRecoverStart_failures] at hincr
      exact absurd hincr (by omega)
    | probeResolve o =>
      exfalso
      cases o with
      | alive =>
        simp only [sessionStep] at hincr
        rw [tryRecoverFinish_alive_failures] at hincr
        split at hincr
        · next hm =>
          have := h1 (by simpa using hm)
          omega
        · omega
      | down =>
        simp only [sessionStep] at hincr
        rw [tryRecoverFinish_down_failures] at hincr
        omega
      | error =>
        simp only [sessionStep] at hincr
        rw [tryRecoverFinish_error_failures] at hincr
        omega
  · cases e with
    | failure a =>
      simp only [sessionStep]
      rw [handleErrorState_failures, handleErrorState_perm]
      by_cases hc : a = 0 ∧ s.permanentFailbackMode = false
      · rw [if_pos hc, if_pos hc]
        by_cases hth : PERMANENT_FAILBACK_THRESHOLD ≤ s.consecutiveOriginalFailures + 1
        · rw [if_pos hth]
          have := h2 hc.2
          constructor
          · intro _
            omega
          · intro _
            exact ⟨hc.2, rfl⟩
        · rw [if_neg hth]
          constructor
          · rintro ⟨_, hpt⟩
            rw [hc.2] at hpt
            exact absurd hpt (by simp)
          · rintro ⟨_, heq⟩
            exfalso
            omega
      · rw [if_neg hc, if_neg hc]
        constructor
        · rintro ⟨hf, ht⟩
          rw [hf] at ht
          exact absurd ht (by simp)
        · rintro ⟨hlt, heq⟩
          exfalso
          omega
    | success a u =>
      simp only [sessionStep]
      rw [onReadyStateSuccessState_failures, onReadyStateSuccessState_perm]
      constructor
      · rintro ⟨hf, ht⟩
        rw [hf] at ht
        exact absurd ht (by simp)
      · rintro ⟨hlt, heq⟩
        exfalso
        split at heq
        · exact absurd heq (by decide)
        · omega
    | probeStart =>
      simp only [sessionStep]
      rw [tryRecoverStart_failures, tryRecoverStart_perm]
      constructor
      · rintro ⟨hf, ht⟩
        rw [hf] at ht
        exact absurd ht (by simp)
      · rintro ⟨hlt, heq⟩
        exfalso
        omega
    | probeResolve o =>
      cases o with
      | alive =>
        simp only [sessionStep]
        rw [tryRecoverFinish_alive_failures, tryRecoverFinish_alive_perm]
        constructor
        · rintro ⟨_, ht⟩
          exact absurd ht (by simp)
        · rintro ⟨hlt, heq⟩
          exfalso
          split at heq
          · exact absurd heq (by decide)
          · omega
      | down =>
        simp only [sessionStep]
        rw [tryRecoverFinish_down_failures, tryRecoverFinish_down_perm]
        constructor
        · rintro ⟨hf, ht⟩
          rw [hf] at ht
          exact absurd ht (by simp)
        · rintro ⟨hlt, heq⟩
          exfalso
          omega
      | error =>
        simp only [sessionStep]
        rw [tryRecoverFinish_error_failures, tryRecoverFinish_error_perm]
        constructor
        · rintro ⟨hf, ht⟩
          rw [hf] at ht
          exact absurd ht (by simp)
        · rintro ⟨hlt, heq⟩
          exfalso
          omega

/-- Claim C1: along every event sequence of a session, the failure counter
increases only at a failure whose attempt index is 0 while permanent mode is
false, and permanent mode flips to true exactly at the transition in which
the counter reaches the threshold 2, never before (whenever permanent mode is
set, the counter equals the threshold). -/
theorem C1_threshold_crossing (evs : List SessionEvent) (e : SessionEvent) :
    ((runSession evs).consecutiveOriginalFailures <
        (sessionStep (runSession evs) e).consecutiveOriginalFailures →
      e = SessionEvent.failure 0 ∧ (runSession evs).permanentFailbackMode = false) ∧
    (((runSession evs).permanentFailbackMode = false ∧
        (sessionStep (runSession evs) e).permanentFailbackMode = true) ↔
      ((runSession evs).consecutiveOriginalFailures < PERMANENT_FAILBACK_THRESHOLD ∧
        (sessionStep (runSession evs) e).consecutiveOriginalFailures =
          PERMANENT_FAILBACK_THRESHOLD)) ∧
    ((sessionStep (runSession evs) e).permanentFailbackMode = true →
      (sessionStep (runSession evs) e).consecutiveOriginalFailures =
        PERMANENT_FAILBACK_THRESHOLD) :=
  sessionStep_attribution (runSession evs) e (sessionInv_runSession evs)

/-- Claim C1 witness: after one primary failure the mode is still off; the
second primary failure flips it, with the counter reaching the threshold. -/
theorem C1_threshold_crossing_witness :
    (runSession [SessionEvent.failure 0]).permanentFailbackMode = false ∧
    (sessionStep (runSession [SessionEvent.failure 0])
      (SessionEvent.failure 0)).permanentFailbackMode = true :=
  (C1_threshold_crossing [SessionEvent.failure 0] (SessionEvent.failure 0)).2.1.mpr
    ⟨by decide, by decide⟩

/-- Claim C8: the stall monitor checks every 1000 ms and declares a stall
exactly when (a) the time since the last progress event exceeds 5000 ms, or
(b) the transfer has begun and the bytes received in the interval are below
the 4096 B/s floor scaled to the interval, making the accumulated low-speed
duration reach 5000 ms; an interval meeting the rate floor resets the
accumulated duration to zero; and a declared stall drives the same
failure-attribution transition as a transport failure. -/
theorem C8_stall_monitor (now loaded : Nat) (m : StallMonitorState) (a : Nat)
    (s : FailbackSessionState) :
    STALL_CHECK_INTERVAL_MS = 1000 ∧ STALL_TIMEOUT_MS = 5000 ∧
    MIN_SPEED_BYTES_PER_SEC = 4096 ∧
    ((stallTick now loaded m).1 = true ↔
      (STALL_TIMEOUT_MS < now - m.lastProgressTime ∨
        (0 < loaded ∧
          (loaded : Int) - (m.lastTotalBytes : Int) <
            (MIN_SPEED_BYTES_PER_SEC : Int) * ((STALL_CHECK_INTERVAL_MS : Int) / 1000) ∧
          STALL_TIMEOUT_MS ≤ m.lowSpeedDuration + STALL_CHECK_INTERVAL_MS))) ∧
    (¬ STALL_TIMEOUT_MS < now - m.lastProgressTime →
      (MIN_SPEED_BYTES_PER_SEC : Int) * ((STALL_CHECK_INTERVAL_MS : Int) / 1000) ≤
        (loaded : Int) - (m.lastTotalBytes : Int) →
      (stallTick now loaded m).2.lowSpeedDuration = 0) ∧
    onStallState a s = handleErrorState a s ∧
    failureStateUpdate FailKind.stalled a s = onStallState a s := by
  refine ⟨rfl, rfl, rfl, ?_, ?_, rfl, rfl⟩
  · simp only [stallTick]
    by_cases hsil : STALL_TIMEOUT_MS < now - m.lastProgressTime
    · simp [hsil]
    · rw [if_neg hsil]
      by_cases hld : 0 < loaded
      · by_cases hdiff : (loaded : Int) - (m.lastTotalBytes : Int) <
            (MIN_SPEED_BYTES_PER_SEC : Int) * ((STALL_CHECK_INTERVAL_MS : Int) / 1000)
        · rw [if_pos ⟨hld, hdiff⟩]
          by_cases hlsd : STALL_TIMEOUT_MS ≤ m.lowSpeedDuration + STALL_CHECK_INTERVAL_MS
          · simp [hlsd, hsil, hld, hdiff]
          · simp [hlsd, hsil, hld, hdiff]
        · rw [if_neg (by intro hcon; exact hdiff hcon.2)]
          simp [hsil, hdiff]
      · rw [if_neg (by intro hcon; exact hld hcon.1)]
        simp [hsil, hld]
  · intro hsil hge
    simp only [stallTick]
    rw [if_neg hsil]
    rw [if_neg (by intro hcon; exact absurd hcon.2 (not_lt.mpr hge))]

/-- Claim C8 witness: a silent interval declares a stall, and a fast interval
resets the low-speed accumulator. -/
theorem C8_stall_monitor_witness :
    (stallTick 6000 0
        { lastProgressTime := 0, lastTotalBytes := 0, lowSpeedDuration := 0 }).1 = true ∧
    (stallTick 1000 50000
        { lastProgressTime := 500, lastTotalBytes := 0, lowSpeedDuration := 3000 }).2.lowSpeedDuration = 0 ∧
    onStallState 0 initialSessionState = handleErrorState 0 initialSessionState := by
  refine ⟨?_, ?_, ?_⟩
  · exact (C8_stall_monitor 6000 0
      { lastProgressTime := 0, lastTotalBytes := 0, lowSpeedDuration := 0 }
      0 initialSessionState).2.2.2.1.mpr (Or.inl (by decide))
  · exact (C8_stall_monitor 1000 50000
      { lastProgressTime := 500, lastTotalBytes := 0, lowSpeedDuration := 3000 }
      0 initialSessionState).2.2.2.2.1 (by decide) (by decide)
  · exact (C8_stall_monitor 1000 50000
      { lastProgressTime := 500, lastTotalBytes := 0, lowSpeedDuration := 3000 }
      0 initialSessionState).2.2.2.2.2.1

/-- Claim C4: a completed 206 response is reclassified as a failure (status
206 fed into the failure path) exactly when the caller set no byte range, the
Content-Range header matches `bytes <start>-<end>/<total>` with a concrete
numeric total, and the returned slice `end - start + 1` is smaller than the
total; a caller-specified range, an absent or unparseable header, a `*` total,
or a full-size slice yield ordinary success and never trigger failover.  The
spec's two concrete headers behave as documented. -/
theorem contentRangeVerdict_some_some (rS rE t : Nat) :
    contentRangeVerdict (some (rS, rE, some t)) =
      if 0 < (t : Int) ∧ (rE : Int) - (rS : Int) + 1 < (t : Int) then
        ResponseClassification.reclassifiedFailure 206
      else ResponseClassification.success := rfl

theorem C4_integrity_reclassification :
    (∀ (rangeStart rangeEnd status : Nat) (contentRange : Option String),
      classify206 rangeStart rangeEnd status contentRange =
          ResponseClassification.reclassifiedFailure 206 ↔
        (rangeStart = 0 ∧ rangeEnd = 0 ∧ status = 206 ∧
          ∃ cr rStart rEnd total, contentRange = some cr ∧
            searchContentRange cr.toList = some (rStart, rEnd, some total) ∧
            0 < (total : Int) ∧ (rEnd : Int) - (rStart : Int) + 1 < (total : Int))) ∧
    classify206 0 0 206 (some "bytes 15592-15592/2624292") =
      ResponseClassification.reclassifiedFailure 206 ∧
    classify206 0 0 206 (some "bytes 0-2624291/2624292") = ResponseClassification.success ∧
    (∀ (rangeStart rangeEnd : Nat) (contentRange : Option String),
      rangeStart ≠ 0 ∨ rangeEnd ≠ 0 →
      classify206 rangeStart rangeEnd 206 contentRange = ResponseClassification.success) := by
  refine ⟨?_, by decide, by decide, ?_⟩
  · intro rangeStart rangeEnd status contentRange
    simp only [classify206]
    by_cases h1 : status = 206 ∧ ¬(rangeStart ≠ 0 ∨ rangeEnd ≠ 0)
    · rw [if_pos h1]
      obtain ⟨h206, hnr⟩ := h1
      push_neg at hnr
      obtain ⟨hrs, hre⟩ := hnr
      cases contentRange with
      | none => simp [hrs, hre, h206]
      | some crs =>
        show contentRangeVerdict (searchContentRange crs.toList) = _ ↔ _
        cases hsr : searchContentRange crs.toList with
        | none =>
          have hsrd : searchContentRange crs.data = none := hsr
          simp [contentRangeVerdict, hrs, hre, h206, hsrd]
        | some trip =>
          obtain ⟨rS, rE, t?⟩ := trip
          cases t? with
          | none =>
            have hsrd : searchContentRange crs.data = some (rS, rE, none) := hsr
            simp [contentRangeVerdict, hrs, hre, h206, hsrd]
          | some t =>
            rw [contentRangeVerdict_some_some]
            by_cases hcond : 0 < (t : Int) ∧ (rE : Int) - (rS : Int) + 1 < (t : Int)
            · rw [if_pos hcond]
              constructor
              · intro _
                exact ⟨hrs, hre, h206, crs, rS, rE, t, rfl, hsr, hcond.1, hcond.2⟩
              · intro _
                rfl
            · rw [if_neg hcond]
              constructor
              · intro h
                exact absurd h (by simp)
              · rintro ⟨_, _, _, cr, rS', rE', t', hcr, hsr', ht', hlt'⟩
                exfalso
                rw [Option.some.injEq] at hcr
                rw [← hcr, hsr] at hsr'
                simp only [Option.some.injEq, Prod.mk.injEq] at hsr'
                obtain ⟨e1, e2, e3⟩ := hsr'
                subst e1
                subst e2
                subst e3
                exact hcond ⟨ht', hlt'⟩
    · rw [if_neg h1]
      constructor
      · intro h
        exact absurd h (by simp)
      · rintro ⟨hrs, hre, h206, _⟩
        exact absurd ⟨h206, by simp [hrs, hre]⟩ h1
  · intro rangeStart rangeEnd contentRange h
    simp only [classify206]
    rw [if_neg (by intro hcon; exact hcon.2 h)]

/-- Claim C4 witness: a ranged request is never reclassified, whatever the
Content-Range header says. -/
theorem C4_integrity_reclassification_witness :
    classify206 100 0 206 (some "bytes 15592-15592/2624292") =
      ResponseClassification.success :=
  C4_integrity_reclassification.2.2.2 100 0 (some "bytes 15592-15592/2624292")
    (Or.inl (by decide))

theorem countTerminals_exhaust (o : URLRec) (n : Nat) (k : FailKind) :
    countTerminals [TraceEvent.allFailed o n, terminalOf k] = 1 := by
  cases k <;> rfl

theorem countTerminals_runAttemptsFuel (hosts : List String) (orig : URLRec)
    (outcome : Nat → AttemptOutcome) :
    ∀ (fuel attempt : Nat) (cur : URLRec) (s : FailbackSessionState),
      attempt ≤ hosts.length → hosts.length + 1 ≤ fuel + attempt →
      countTerminals (runAttemptsFuel hosts orig outcome fuel cur attempt s).2 = 1 := by
  intro fuel
  induction fuel with
  | zero =>
    intro attempt cur s h1 h2
    omega
  | succ fuel ih =>
    intro attempt cur s h1 h2
    cases houtcome : outcome attempt with
    | ok =>
      simp only [runAttemptsFuel, houtcome]
      rfl
    | fail k =>
      simp only [runAttemptsFuel, houtcome]
      cases hrw : getFailbackUrl none hosts (some orig) attempt with
      | some u =>
        have hlt := getFailbackUrl_default_some_lt hosts orig attempt u hrw
        simp only [hrw]
        by_cases hne : u ≠ cur
        · rw [if_pos hne]
          show countTerminals (TraceEvent.failback orig u (attempt + 1) ::
            (runAttemptsFuel hosts orig outcome fuel u (attempt + 1)
              (failureStateUpdate k attempt s)).2) = 1
          have hstep : countTerminals (TraceEvent.failback orig u (attempt + 1) ::
              (runAttemptsFuel hosts orig outcome fuel u (attempt + 1)
                (failureStateUpdate k attempt s)).2) =
              countTerminals ((runAttemptsFuel hosts orig outcome fuel u (attempt + 1)
                (failureStateUpdate k attempt s)).2) := rfl
          rw [hstep]
          exact ih (attempt + 1) u (failureStateUpdate k attempt s) (by omega) (by omega)
        · rw [if_neg hne]
          exact countTerminals_exhaust orig (attempt + 1) k
      | none =>
        simp only [hrw]
        exact countTerminals_exhaust orig (attempt + 1) k

theorem runAttemptsFuel_all_fail (hosts : List String) (orig : URLRec) (kind : Nat → FailKind)
    (hdist : ∀ i, i < hosts.length → candidateAt hosts orig i ≠ triedAt hosts orig i) :
    ∀ (fuel attempt : Nat) (s : FailbackSessionState),
      attempt ≤ hosts.length → hosts.length + 1 ≤ fuel + attempt →
      (runAttemptsFuel hosts orig (fun i => AttemptOutcome.fail (kind i)) fuel
        (triedAt hosts orig attempt) attempt s).2 =
        (List.range' attempt (hosts.length - attempt)).map
          (fun i => TraceEvent.failback orig (candidateAt hosts orig i) (i + 1)) ++
        [TraceEvent.allFailed orig (hosts.length + 1), terminalOf (kind hosts.length)] := by
  intro fuel
  induction fuel with
  | zero =>
    intro attempt s h1 h2
    omega
  | succ fuel ih =>
    intro attempt s h1 h2
    by_cases hlt : attempt < hosts.length
    · have hrw := getFailbackUrl_default_lt_some hosts orig attempt hlt
      have hne := hdist attempt hlt
      simp only [runAttemptsFuel, hrw]
      rw [if_pos hne]
      show TraceEvent.failback orig (candidateAt hosts orig attempt) (attempt + 1) ::
          (runAttemptsFuel hosts orig (fun i => AttemptOutcome.fail (kind i)) fuel
            (candidateAt hosts orig attempt) (attempt + 1)
            (failureStateUpdate (kind attempt) attempt s)).2 = _
      have ihx : (runAttemptsFuel hosts orig (fun i => AttemptOutcome.fail (kind i)) fuel
          (candidateAt hosts orig attempt) (attempt + 1)
          (failureStateUpdate (kind attempt) attempt s)).2 =
          (List.range' (attempt + 1) (hosts.length - (attempt + 1))).map
            (fun i => TraceEvent.failback orig (candidateAt hosts orig i) (i + 1)) ++
          [TraceEvent.allFailed orig (hosts.length + 1), terminalOf (kind hosts.length)] :=
        ih (attempt + 1) (failureStateUpdate (kind attempt) attempt s) (by omega) (by omega)
      rw [ihx]
      have hn : hosts.length - attempt = (hosts.length - (attempt + 1)) + 1 := by omega
      rw [hn, List.range'_succ, List.map_cons, List.cons_append]
    · have heq : attempt = hosts.length := by omega
      subst heq
      have hrw := getFailbackUrl_default_of_le hosts (some orig) hosts.length (le_refl _)
      simp only [runAttemptsFuel, hrw]
      rw [Nat.sub_self]
      rfl

/-- Claim C3: with K configured alternate hosts, a primary that always fails
and alternates that always fail, with each rewritten candidate distinct from
the URL just tried, the loader issues exactly K+1 attempts strictly in host
order (K `onFailback` events with increasing attempt index and rewritten
URL), fires `onAllFailed` exactly once with `attempts = K + 1`, and its
terminal callback carries the last attempt's failure (status and status text
for the final HTTP error), not a history of all attempts. -/
theorem C3_sequential_exhaustion (hosts : List String) (orig : URLRec)
    (kind : Nat → FailKind) (s : FailbackSessionState)
    (hdist : ∀ i, i < hosts.length → candidateAt hosts orig i ≠ triedAt hosts orig i) :
    (runAttempts hosts orig (fun i => AttemptOutcome.fail (kind i)) s).2 =
      (List.range hosts.length).map
        (fun i => TraceEvent.failback orig (candidateAt hosts orig i) (i + 1)) ++
      [TraceEvent.allFailed orig (hosts.length + 1), terminalOf (kind hosts.length)] := by
  rw [List.range_eq_range']
  have h := runAttemptsFuel_all_fail hosts orig kind hdist (hosts.length + 1) 0 s
    (Nat.zero_le _) (by omega)
  rw [Nat.sub_zero] at h
  exact h

/-- Claim C3 witness: two always-failing alternates behind an always-failing
primary produce two failback events in host order, one `onAllFailed` with 3
attempts, and a terminal error carrying the last HTTP status. -/
theorem C3_sequential_exhaustion_witness :
    (runAttempts ["h1", "h2"]
      { scheme := "http:", username := "", password := "", hostname := "origin.example.com",
        port := "", pathname := "/seg/7.ts", search := "", hash := "" }
      (fun _ => AttemptOutcome.fail (FailKind.httpError 503 "Service Unavailable"))
      initialSessionState).2 =
      (List.range 2).map
        (fun i => TraceEvent.failback
          { scheme := "http:", username := "", password := "",
            hostname := "origin.example.com", port := "", pathname := "/seg/7.ts",
            search := "", hash := "" }
          (candidateAt ["h1", "h2"]
            { scheme := "http:", username := "", password := "",
              hostname := "origin.example.com", port := "", pathname := "/seg/7.ts",
              search := "", hash := "" } i) (i + 1)) ++
      [TraceEvent.allFailed
        { scheme := "http:", username := "", password := "", hostname := "origin.example.com",
          port := "", pathname := "/seg/7.ts", search := "", hash := "" } 3,
       TraceEvent.termError 503 "Service Unavailable"] :=
  C3_sequential_exhaustion ["h1", "h2"]
    { scheme := "http:", username := "", password := "", hostname := "origin.example.com",
      port := "", pathname := "/seg/7.ts", search := "", hash := "" }
    (fun _ => FailKind.httpError 503 "Service Unavailable") initialSessionState (by decide)

/-- Claim C9: every `load` call (modelled over the default rewriter, for an
arbitrary per-attempt outcome oracle) invokes exactly one terminal callback —
intermediate failures produce only `onFailback` events — and a `load` issued
when `stats.loading.start` is already set (any second use of the instance)
throws `Loader can only be used once.`. -/
theorem C9_single_terminal_callback (hosts : List String) (orig : URLRec)
    (outcome : Nat → AttemptOutcome) (s : FailbackSessionState) (now nextNow : Nat)
    (hnow : 0 < now) :
    countTerminals (runAttempts hosts orig outcome s).2 = 1 ∧
    loadStartGuard 0 now = Except.ok now ∧
    loadStartGuard now nextNow = Except.error "Loader can only be used once." := by
  refine ⟨?_, rfl, ?_⟩
  · exact countTerminals_runAttemptsFuel hosts orig outcome (hosts.length + 1) 0 orig s
      (Nat.zero_le _) (by omega)
  · simp [loadStartGuard, Nat.pos_iff_ne_zero.mp hnow]

/-- Claim C9 witness: a concrete load with a failing primary and one failing
alternate yields exactly one terminal callback, and a reused loader throws. -/
theorem C9_single_terminal_callback_witness :
    countTerminals (runAttempts ["h1"]
      { scheme := "http:", username := "", password := "", hostname := "origin.example.com",
        port := "", pathname := "/seg/9.ts", search := "", hash := "" }
      (fun _ => AttemptOutcome.fail FailKind.networkError) initialSessionState).2 = 1 ∧
    loadStartGuard 0 1 = Except.ok 1 ∧
    loadStartGuard 1 2 = Except.error "Loader can only be used once." :=
  C9_single_terminal_callback ["h1"]
    { scheme := "http:", username := "", password := "", hostname := "origin.example.com",
      port := "", pathname := "/seg/9.ts", search := "", hash := "" }
    (fun _ => AttemptOutcome.fail FailKind.networkError) initialSessionState 1 2 (by decide)

end HlsFailback
